import Mathlib

/-!
Shallow embedding of HyperHDR's `DiscoveryBrowser.cpp` (`DiscoveryWrapper`).

The wrapper keeps one `QList<DiscoveryRecord>` per service category, merges
incoming sightings (`gotMessage`), expires stale entries (`cleanUp`), exposes
query operations and lazily constructs a serial backend for SerialPort scans.

Modelling decisions:
* Qt signal emissions are made explicit: each operation returns, besides its
  result and the updated state, the list of `foundService` emissions
  (category together with the list payload) and the list of `requestToScan`
  emissions it performed, in order.
* Time is an explicit `now : Nat` parameter; the TTL window is an explicit
  `ttl : Nat` parameter (the excerpt does not fix its numeric value).
* `QNetworkInterface::allAddresses()` is an explicit `localAddresses` list of
  strings, and `QHostAddress` comparison is modelled as string equality.
-/

namespace DiscoveryBrowser

/-- `DiscoveryRecord::Service` enum: the service categories handled by the
wrapper, with `Unknown` as sentinel. -/
inductive Service where
  | Unknown
  | HyperHDR
  | WLED
  | PhilipsHue
  | Pico
  | ESP32_S2
  | ESP
  | SerialPort
  deriving DecidableEq, Repr

/-- `DiscoveryRecord`: one observed device/service. `type` is the category,
`isExists` distinguishes a sighting from a deregistration, `expiry` is the
TTL deadline (absolute time). -/
structure DiscoveryRecord where
  type : Service
  address : String
  port : Nat
  hostName : String
  isExists : Bool
  expiry : Nat
  deriving DecidableEq, Repr

/-- Modelled from the spec: `DiscoveryRecord::operator==` lives in the
`DiscoveryRecord` header/implementation, which is not part of the excerpt.
Per the spec, two Records are the same entry iff `category`, `address` and
`port` match; equality never consults `exists` or `expiry`. -/
def recEq (a b : DiscoveryRecord) : Bool :=
  decide (a.type = b.type) && decide (a.address = b.address) && decide (a.port = b.port)

/-- Modelled from the spec: `DiscoveryRecord::expired()` is not in the
excerpt; per the spec it returns `now > expiry`. -/
def expired (now : Nat) (r : DiscoveryRecord) : Bool :=
  decide (r.expiry < now)

/-- Modelled from the spec: `DiscoveryRecord::resetTTL()` is not in the
excerpt; per the spec it sets `expiry = now + TTL_WINDOW`. -/
def resetTTL (now ttl : Nat) (r : DiscoveryRecord) : DiscoveryRecord :=
  { r with expiry := now + ttl }

/-- The dedup key of a record: the fields consulted by `recEq`. -/
def key (r : DiscoveryRecord) : Service × String × Nat :=
  (r.type, r.address, r.port)

/-- A `foundService` signal emission: the affected category and the list
payload passed with it. -/
abbrev FoundEmit := Service × List DiscoveryRecord

/-- The `while (i.hasNext())` loop of `DiscoveryWrapper::cleanUp`: drops every
expired record, and threads the `action` variable, which is overwritten with
`message.type` at each removal (so it ends as the type of the last removed
record, or its initial value if none was removed). -/
def cleanUpLoop (now : Nat) (action : Service) :
    List DiscoveryRecord → List DiscoveryRecord × Service
  | [] => ([], action)
  | r :: rs =>
    if expired now r then
      cleanUpLoop now r.type rs
    else
      let p := cleanUpLoop now action rs
      (r :: p.1, p.2)

/-- `DiscoveryWrapper::cleanUp`: remove expired records; if `action` ended
different from `Unknown`, emit one `foundService(action, target)` with the
post-removal list. -/
def cleanUp (now : Nat) (target : List DiscoveryRecord) :
    List DiscoveryRecord × List FoundEmit :=
  let p := cleanUpLoop now Service.Unknown target
  if p.2 ≠ Service.Unknown then (p.1, [(p.2, p.1)]) else (p.1, [])

/-- The `for (DiscoveryRecord& rec : target)` loop of the `isExists` branch of
`gotMessage`: reset the TTL of the first record equal to `message` (the C++
loop returns right after the first match). -/
def resetTTLFirst (now ttl : Nat) (message : DiscoveryRecord) :
    List DiscoveryRecord → List DiscoveryRecord
  | [] => []
  | r :: rs =>
    if recEq r message then
      resetTTL now ttl r :: rs
    else
      r :: resetTTLFirst now ttl message rs

/-- `DiscoveryWrapper::gotMessage`: self-filter against local interface
addresses, then merge (`isExists = true`: refresh in place or append) or
deregister (`isExists = false`: keep only records not equal to `message`);
emit `foundService(message.type, target)` exactly when the length changed. -/
def gotMessage (localAddresses : List String) (now ttl : Nat)
    (target : List DiscoveryRecord) (message : DiscoveryRecord) :
    List DiscoveryRecord × List FoundEmit :=
  if localAddresses.any (fun a => a = message.address) then
    (target, [])
  else if message.isExists then
    if target.any (fun rec => recEq rec message) then
      (resetTTLFirst now ttl message target, [])
    else
      let newSessions := target ++ [message]
      if target.length ≠ newSessions.length then
        (newSessions, [(message.type, newSessions)])
      else
        (target, [])
  else
    let newSessions := target.filter (fun rec => !recEq rec message)
    if target.length ≠ newSessions.length then
      (newSessions, [(message.type, newSessions)])
    else
      (target, [])

/-- The serial backend handle (`LedDevice*`), identified by the JSON config it
was constructed with (modelled as an association list of string pairs). -/
structure LedDevice where
  deviceConfig : List (String × String)
  deriving DecidableEq, Repr

/-- Modelled from the spec: `LedDeviceFactory::construct(config)` is not in
the excerpt; per the spec it is a `construct(config) -> Backend` contract
selecting a backend kind from the config blob. -/
def constructDevice (deviceConfig : List (String × String)) : LedDevice :=
  ⟨deviceConfig⟩

/-- Calls made against the backend boundary: constructing a backend from a
config, calling `discover(params)` on a handle, and releasing a handle. -/
inductive BackendCall where
  | construct (deviceConfig : List (String × String))
  | discover (device : LedDevice) (params : List (String × String))
  | release (device : LedDevice)
  deriving DecidableEq, Repr

/-- The state of a `DiscoveryWrapper`: the six per-category stores and the
lazily-constructed serial backend handle. -/
structure DiscoveryWrapper where
  hyperhdrSessions : List DiscoveryRecord
  wledDevices : List DiscoveryRecord
  hueDevices : List DiscoveryRecord
  picoDevices : List DiscoveryRecord
  esp32s2Devices : List DiscoveryRecord
  espDevices : List DiscoveryRecord
  serialDevice : Option LedDevice
  deriving DecidableEq, Repr

/-- Result of a consumer-facing query: the returned list, the updated wrapper
state, and the `foundService` / `requestToScan` emissions, in order. -/
structure QueryResult where
  returned : List DiscoveryRecord
  state : DiscoveryWrapper
  found : List FoundEmit
  scans : List Service
  deriving DecidableEq, Repr

/-- `DiscoveryWrapper::getPhilipsHUE`: clean up the hue store, emit one
`requestToScan(PhilipsHue)`, return the (post-cleanup) hue store. -/
def getPhilipsHUE (now : Nat) (w : DiscoveryWrapper) : QueryResult :=
  let p := cleanUp now w.hueDevices
  ⟨p.1, { w with hueDevices := p.1 }, p.2, [Service.PhilipsHue]⟩

/-- `DiscoveryWrapper::getWLED`: clean up the WLED store, emit one
`requestToScan(WLED)`, return the (post-cleanup) WLED store. -/
def getWLED (now : Nat) (w : DiscoveryWrapper) : QueryResult :=
  let p := cleanUp now w.wledDevices
  ⟨p.1, { w with wledDevices := p.1 }, p.2, [Service.WLED]⟩

/-- `DiscoveryWrapper::getHyperHDRServices`: plain read of the sessions
store, no cleanup, no emissions. -/
def getHyperHDRServices (w : DiscoveryWrapper) : QueryResult :=
  ⟨w.hyperhdrSessions, w, [], []⟩

/-- `DiscoveryWrapper::getAllServices`: concatenation of the six stores in
the source's order, no cleanup, no emissions. -/
def getAllServices (w : DiscoveryWrapper) : QueryResult :=
  ⟨w.hyperhdrSessions ++ w.esp32s2Devices ++ w.espDevices ++ w.hueDevices
      ++ w.picoDevices ++ w.wledDevices,
   w, [], []⟩

/-- `DiscoveryWrapper::requestServicesScan`: clean up all six stores and emit
`requestToScan` for WLED, PhilipsHue, HyperHDR and SerialPort (in the
source's order of emission). -/
def requestServicesScan (now : Nat) (w : DiscoveryWrapper) :
    DiscoveryWrapper × List FoundEmit × List Service :=
  let pw := cleanUp now w.wledDevices
  let ph := cleanUp now w.hueDevices
  let ps := cleanUp now w.hyperhdrSessions
  let p32 := cleanUp now w.esp32s2Devices
  let pe := cleanUp now w.espDevices
  let pp := cleanUp now w.picoDevices
  ({ w with
      wledDevices := pw.1
      hueDevices := ph.1
      hyperhdrSessions := ps.1
      esp32s2Devices := p32.1
      espDevices := pe.1
      picoDevices := pp.1 },
   pw.2 ++ ph.2 ++ ps.2 ++ p32.2 ++ pe.2 ++ pp.2,
   [Service.WLED, Service.PhilipsHue, Service.HyperHDR, Service.SerialPort])

/-- `DiscoveryWrapper::discoveryEventHandler`: dispatch a sighting to the
store matching `message.type`; any other category falls through with no
effect. -/
def discoveryEventHandler (localAddresses : List String) (now ttl : Nat)
    (message : DiscoveryRecord) (w : DiscoveryWrapper) :
    DiscoveryWrapper × List FoundEmit :=
  if message.type = Service.HyperHDR then
    let p := gotMessage localAddresses now ttl w.hyperhdrSessions message
    ({ w with hyperhdrSessions := p.1 }, p.2)
  else if message.type = Service.WLED then
    let p := gotMessage localAddresses now ttl w.wledDevices message
    ({ w with wledDevices := p.1 }, p.2)
  else if message.type = Service.PhilipsHue then
    let p := gotMessage localAddresses now ttl w.hueDevices message
    ({ w with hueDevices := p.1 }, p.2)
  else if message.type = Service.Pico then
    let p := gotMessage localAddresses now ttl w.picoDevices message
    ({ w with picoDevices := p.1 }, p.2)
  else if message.type = Service.ESP32_S2 then
    let p := gotMessage localAddresses now ttl w.esp32s2Devices message
    ({ w with esp32s2Devices := p.1 }, p.2)
  else if message.type = Service.ESP then
    let p := gotMessage localAddresses now ttl w.espDevices message
    ({ w with espDevices := p.1 }, p.2)
  else
    (w, [])

/-- The config `{ "type": "adalight" }` built inside `requestToScanHandler`. -/
def adalightConfig : List (String × String) := [("type", "adalight")]

/-- `DiscoveryWrapper::requestToScanHandler`: on a SerialPort request, lazily
construct the serial backend (once) and call `discover` on it with an empty
parameter object; other categories make no backend call. Returns the updated
state and the backend calls performed. -/
def requestToScanHandler (ty : Service) (w : DiscoveryWrapper) :
    DiscoveryWrapper × List BackendCall :=
  if ty = Service.SerialPort then
    match w.serialDevice with
    | none =>
      let dev := constructDevice adalightConfig
      ({ w with serialDevice := some dev },
       [BackendCall.construct adalightConfig, BackendCall.discover dev []])
    | some dev => (w, [BackendCall.discover dev []])
  else
    (w, [])

/-- `DiscoveryWrapper::~DiscoveryWrapper`: release the serial backend handle
if one was constructed. -/
def teardown (w : DiscoveryWrapper) : List BackendCall :=
  match w.serialDevice with
  | some dev => [BackendCall.release dev]
  | none => []

/-- Processing a whole sequence of `requestToScan` events through
`requestToScanHandler`, collecting the backend calls in order. -/
def runScans (w : DiscoveryWrapper) : List Service → DiscoveryWrapper × List BackendCall
  | [] => (w, [])
  | t :: ts =>
    let p := requestToScanHandler t w
    let q := runScans p.1 ts
    (q.1, p.2 ++ q.2)

/-- One processing step on a single category store: either a sighting handed
to `gotMessage` at some time, or a `cleanUp` pass at some time. -/
inductive DEvent where
  | sight (now : Nat) (message : DiscoveryRecord)
  | clean (now : Nat)
  deriving DecidableEq, Repr

/-- Apply one processing step to a store. -/
def stepStore (localAddresses : List String) (ttl : Nat)
    (store : List DiscoveryRecord) : DEvent → List DiscoveryRecord
  | DEvent.sight now message => (gotMessage localAddresses now ttl store message).1
  | DEvent.clean now => (cleanUp now store).1

/-- Apply a sequence of processing steps to a store. -/
def runStore (localAddresses : List String) (ttl : Nat)
    (store : List DiscoveryRecord) (evs : List DEvent) : List DiscoveryRecord :=
  evs.foldl (stepStore localAddresses ttl) store

/-- Sample record: a WLED device sighting whose TTL deadline is time 1. -/
def recWled : DiscoveryRecord := ⟨Service.WLED, "10.0.0.5", 80, "wled-host", true, 1⟩

/-- Sample record: a second WLED device at another address, deadline 9. -/
def recWledB : DiscoveryRecord := ⟨Service.WLED, "10.0.0.6", 80, "wled-b", true, 9⟩

/-- Sample record: an `Unknown`-category record, already past its deadline. -/
def recUnknown : DiscoveryRecord := ⟨Service.Unknown, "10.0.0.7", 81, "u", true, 0⟩

/-- Sample record: a Philips Hue bridge sighting, deadline 5. -/
def recHue : DiscoveryRecord := ⟨Service.PhilipsHue, "10.0.0.8", 82, "hue", true, 5⟩

/-- Sample record: a HyperHDR session sighting, deadline 5. -/
def recSession : DiscoveryRecord := ⟨Service.HyperHDR, "10.0.0.9", 83, "s", true, 5⟩

/-- Sample record: same dedup key as `recWled` but another host name,
arriving as a fresh sighting. -/
def recWledRefresh : DiscoveryRecord := ⟨Service.WLED, "10.0.0.5", 80, "wled-alt", true, 0⟩

/-- Sample record: a deregistration (`isExists = false`) with the same dedup
key as `recWled`. -/
def recWledGone : DiscoveryRecord := ⟨Service.WLED, "10.0.0.5", 80, "wled-host", false, 0⟩

/-- A wrapper state with all six stores empty and no serial backend. -/
def emptyWrapper : DiscoveryWrapper := ⟨[], [], [], [], [], [], none⟩

/-- `recEq` is exactly equality of dedup keys. -/
theorem recEq_iff_key {a b : DiscoveryRecord} : recEq a b = true ↔ key a = key b := by
  simp [recEq, key, Prod.ext_iff, and_assoc]

/-- `resetTTL` only touches `expiry`, so it preserves the dedup key. -/
theorem key_resetTTL (now ttl : Nat) (r : DiscoveryRecord) :
    key (resetTTL now ttl r) = key r := rfl

/-- The removal loop of `cleanUp` keeps exactly the non-expired records. -/
theorem cleanUpLoop_fst (now : Nat) (a : Service) (l : List DiscoveryRecord) :
    (cleanUpLoop now a l).1 = l.filter (fun r => !expired now r) := by
  induction l generalizing a with
  | nil => rfl
  | cons r rs ih =>
    cases h : expired now r with
    | true => simp [cleanUpLoop, h, List.filter_cons, ih]
    | false => simp [cleanUpLoop, h, List.filter_cons, ih]

/-- `cleanUp` keeps exactly the non-expired records. -/
theorem cleanUp_fst (now : Nat) (l : List DiscoveryRecord) :
    (cleanUp now l).1 = l.filter (fun r => !expired now r) := by
  simp only [cleanUp]
  split <;> exact cleanUpLoop_fst now Service.Unknown l

/-- After `cleanUp` at time `now`, no record in the store is expired. -/
theorem cleanUp_not_expired (now : Nat) (l : List DiscoveryRecord) :
    ∀ r ∈ (cleanUp now l).1, expired now r = false := by
  intro r hr
  rw [cleanUp_fst] at hr
  simpa using List.of_mem_filter hr

/-- `cleanUp` preserves distinctness of dedup keys. -/
theorem cleanUp_nodup (now : Nat) (l : List DiscoveryRecord)
    (h : (l.map key).Nodup) : (((cleanUp now l).1).map key).Nodup := by
  rw [cleanUp_fst]
  exact h.sublist ((l.filter_sublist).map key)

/-- Refreshing the first matching record leaves the list of dedup keys
unchanged. -/
theorem resetTTLFirst_map_key (now ttl : Nat) (message : DiscoveryRecord)
    (l : List DiscoveryRecord) :
    (resetTTLFirst now ttl message l).map key = l.map key := by
  induction l with
  | nil => rfl
  | cons r rs ih =>
    by_cases h : recEq r message = true
    · simp [resetTTLFirst, h, key_resetTTL]
    · simp [resetTTLFirst, h, ih]

/-- Refreshing the first matching record does not change the length. -/
theorem resetTTLFirst_length (now ttl : Nat) (message : DiscoveryRecord)
    (l : List DiscoveryRecord) :
    (resetTTLFirst now ttl message l).length = l.length := by
  have h := congrArg List.length (resetTTLFirst_map_key now ttl message l)
  simpa using h

/-- The self-filter test of `gotMessage` succeeds exactly when the message's
address is one of the local interface addresses. -/
theorem any_address_eq (localAddresses : List String) (message : DiscoveryRecord) :
    (localAddresses.any (fun a => a = message.address)) = true ↔
      message.address ∈ localAddresses := by
  constructor
  · intro h
    obtain ⟨a, ha, hab⟩ := List.any_eq_true.mp h
    have hEq : a = message.address := of_decide_eq_true hab
    exact hEq ▸ ha
  · intro h
    exact List.any_eq_true.mpr ⟨message.address, h, by simp⟩

/-- When the message address is not local, the self-filter test is false. -/
theorem any_address_eq_false {localAddresses : List String} {message : DiscoveryRecord}
    (hself : message.address ∉ localAddresses) :
    (localAddresses.any (fun a => a = message.address)) = false := by
  cases hb : localAddresses.any (fun a => a = message.address) with
  | false => rfl
  | true => exact absurd ((any_address_eq _ _).mp hb) hself

/-- Branch lemma: a sighting from a local address is discarded unchanged. -/
theorem gotMessage_self {localAddresses : List String} (now ttl : Nat)
    (target : List DiscoveryRecord) {message : DiscoveryRecord}
    (h : message.address ∈ localAddresses) :
    gotMessage localAddresses now ttl target message = (target, []) := by
  unfold gotMessage
  rw [if_pos ((any_address_eq _ _).mpr h)]

/-- Branch lemma: an `isExists = true` sighting matching an existing record
refreshes the first match in place. -/
theorem gotMessage_refresh_eq {localAddresses : List String} (now ttl : Nat)
    (target : List DiscoveryRecord) {message : DiscoveryRecord}
    (hself : message.address ∉ localAddresses)
    (hex : message.isExists = true)
    (hany : target.any (fun rec => recEq rec message) = true) :
    gotMessage localAddresses now ttl target message =
      (resetTTLFirst now ttl message target, []) := by
  simp [gotMessage, any_address_eq_false hself, hex, hany]

/-- Branch lemma: an `isExists = true` sighting with no existing match is
appended and one notification is emitted with the new list. -/
theorem gotMessage_append_eq {localAddresses : List String} (now ttl : Nat)
    (target : List DiscoveryRecord) {message : DiscoveryRecord}
    (hself : message.address ∉ localAddresses)
    (hex : message.isExists = true)
    (hany : target.any (fun rec => recEq rec message) = false) :
    gotMessage localAddresses now ttl target message =
      (target ++ [message], [(message.type, target ++ [message])]) := by
  simp [gotMessage, any_address_eq_false hself, hex, hany]

/-- Branch lemma: an `isExists = false` sighting matching at least one record
keeps only the non-matching records and emits one notification. -/
theorem gotMessage_dereg_hit_eq {localAddresses : List String} (now ttl : Nat)
    (target : List DiscoveryRecord) {message : DiscoveryRecord}
    (hself : message.address ∉ localAddresses)
    (hex : message.isExists = false)
    (hany : target.any (fun rec => recEq rec message) = true) :
    gotMessage localAddresses now ttl target message =
      (target.filter (fun rec => !recEq rec message),
       [(message.type, target.filter (fun rec => !recEq rec message))]) := by
  obtain ⟨r, hr, hrEq⟩ := List.any_eq_true.mp hany
  have hlt : (target.filter (fun rec => !recEq rec message)).length < target.length :=
    List.length_filter_lt_length_iff_exists.mpr ⟨r, hr, by simp [hrEq]⟩
  have hne : target.length ≠ (target.filter (fun rec => !recEq rec message)).length :=
    fun hc => absurd hc.symm (Nat.ne_of_lt hlt)
  simp [gotMessage, any_address_eq_false hself, hex, hne]

/-- Branch lemma: an `isExists = false` sighting with no match is a no-op. -/
theorem gotMessage_dereg_miss_eq {localAddresses : List String} (now ttl : Nat)
    (target : List DiscoveryRecord) {message : DiscoveryRecord}
    (hself : message.address ∉ localAddresses)
    (hex : message.isExists = false)
    (hany : target.any (fun rec => recEq rec message) = false) :
    gotMessage localAddresses now ttl target message = (target, []) := by
  have hall : ∀ r ∈ target, recEq r message = false := by
    intro r hr
    cases hc : recEq r message with
    | false => rfl
    | true =>
      rw [List.any_eq_false] at hany
      exact absurd hc (hany r hr)
  have hfeq : target.filter (fun rec => !recEq rec message) = target := by
    apply List.filter_eq_self.mpr
    intro a ha
    simp [hall a ha]
  simp [gotMessage, any_address_eq_false hself, hex, hfeq]

/-- In a store whose records all have category `c`, the `action` variable of
the removal loop ends as `c` when at least one record was removed, and keeps
its initial value otherwise. -/
theorem cleanUpLoop_snd (now : Nat) (c : Service) :
    ∀ (l : List DiscoveryRecord) (a : Service), (∀ r ∈ l, r.type = c) →
      (a = Service.Unknown ∨ a = c) →
      (cleanUpLoop now a l).2 = if l.any (expired now) then c else a := by
  intro l
  induction l with
  | nil => intro a _ _; simp [cleanUpLoop]
  | cons r rs ih =>
    intro a hall ha
    have hrc : r.type = c := hall r (List.mem_cons_self r rs)
    have hrs : ∀ x ∈ rs, x.type = c := fun x hx => hall x (List.mem_cons_of_mem r hx)
    cases h : expired now r with
    | true =>
      simp only [cleanUpLoop, h, ite_true, List.any_cons, Bool.true_or]
      rw [ih r.type hrs (Or.inr hrc)]
      cases hany : rs.any (expired now) <;> simp [hrc]
    | false =>
      simp only [cleanUpLoop, h, Bool.false_eq_true, ite_false, List.any_cons, Bool.false_or]
      exact ih a hrs ha

/-- Full description of `cleanUp` on a store whose records all have one
non-`Unknown` category `c`: the expired records are dropped and one
notification `(c, post-removal list)` is emitted iff at least one record
expired. -/
theorem cleanUp_homog (now : Nat) (c : Service) (l : List DiscoveryRecord)
    (hc : c ≠ Service.Unknown) (hall : ∀ r ∈ l, r.type = c) :
    cleanUp now l =
      (l.filter (fun r => !expired now r),
       if l.any (expired now) then [(c, l.filter (fun r => !expired now r))] else []) := by
  have h2 : (cleanUpLoop now Service.Unknown l).2 =
      if l.any (expired now) then c else Service.Unknown :=
    cleanUpLoop_snd now c l Service.Unknown hall (Or.inl rfl)
  have h1 := cleanUpLoop_fst now Service.Unknown l
  simp only [cleanUp, h1, h2]
  cases hany : l.any (expired now) with
  | true => simp [hc]
  | false => simp

/-- From a state whose serial handle is already the adalight backend, a
sequence of scan requests leaves the state untouched and produces exactly one
`discover` call on that same handle, with empty parameters, per SerialPort
request — and no other backend call. -/
theorem runScans_some (reqs : List Service) :
    ∀ (w : DiscoveryWrapper), w.serialDevice = some (constructDevice adalightConfig) →
      (runScans w reqs).1 = w ∧
      (runScans w reqs).2 =
        List.replicate (reqs.count Service.SerialPort)
          (BackendCall.discover (constructDevice adalightConfig) []) := by
  induction reqs with
  | nil =>
    intro w h
    exact ⟨rfl, by simp [runScans]⟩
  | cons t ts ih =>
    intro w h
    by_cases ht : t = Service.SerialPort
    · subst ht
      have hstep : requestToScanHandler Service.SerialPort w =
          (w, [BackendCall.discover (constructDevice adalightConfig) []]) := by
        simp [requestToScanHandler, h]
      have hrest := ih w h
      constructor
      · simp only [runScans, hstep]
        exact hrest.1
      · simp only [runScans, hstep, hrest.2]
        rw [List.count_cons_self, List.replicate_succ]
        rfl
    · have hstep : requestToScanHandler t w = (w, []) := by
        simp [requestToScanHandler, ht]
      have hrest := ih w h
      constructor
      · simp only [runScans, hstep]
        exact hrest.1
      · simp only [runScans, hstep, List.nil_append, hrest.2]
        rw [List.count_cons_of_ne (fun hc => ht hc.symm)]

/-- `gotMessage` preserves distinctness of dedup keys. -/
theorem gotMessage_nodup (localAddresses : List String) (now ttl : Nat)
    (target : List DiscoveryRecord) (message : DiscoveryRecord)
    (h : (target.map key).Nodup) :
    (((gotMessage localAddresses now ttl target message).1).map key).Nodup := by
  by_cases hself : message.address ∈ localAddresses
  · rw [gotMessage_self now ttl target hself]
    exact h
  · cases hex : message.isExists with
    | true =>
      cases hany : target.any (fun rec => recEq rec message) with
      | true =>
        rw [gotMessage_refresh_eq now ttl target hself hex hany]
        simpa [resetTTLFirst_map_key] using h
      | false =>
        rw [gotMessage_append_eq now ttl target hself hex hany]
        have hkeys : ∀ r ∈ target, key r ≠ key message := by
          intro r hr
          rw [List.any_eq_false] at hany
          exact fun hk => (hany r hr) (recEq_iff_key.mpr hk)
        simp only [List.map_append, List.map_singleton]
        rw [List.nodup_append]
        refine ⟨h, List.nodup_singleton _, ?_⟩
        intro a ha hb
        simp only [List.mem_singleton] at hb
        subst hb
        simp only [List.mem_map] at ha
        obtain ⟨c, hc, hfc⟩ := ha
        exact hkeys c hc hfc
    | false =>
      cases hany : target.any (fun rec => recEq rec message) with
      | true =>
        rw [gotMessage_dereg_hit_eq now ttl target hself hex hany]
        exact h.sublist ((target.filter_sublist).map key)
      | false =>
        rw [gotMessage_dereg_miss_eq now ttl target hself hex hany]
        exact h

/-- Claim C3: a sighting whose address equals a local interface address is
discarded by `gotMessage`: the store is returned unchanged and no
`foundService` notification is emitted, regardless of the sighting's
category and of its `isExists` flag. -/
theorem self_sighting_discarded (localAddresses : List String) (now ttl : Nat)
    (target : List DiscoveryRecord) (message : DiscoveryRecord)
    (h : message.address ∈ localAddresses) :
    gotMessage localAddresses now ttl target message = (target, []) :=
  gotMessage_self now ttl target h

/-- Witness for C3 at a concrete self-addressed sighting. -/
theorem self_sighting_discarded_witness :
    recWled.address ∈ ["10.0.0.5"] ∧
      gotMessage ["10.0.0.5"] 7 5 [recWledB] recWled = ([recWledB], []) :=
  ⟨by decide, self_sighting_discarded ["10.0.0.5"] 7 5 [recWledB] recWled (by decide)⟩

/-- Claim C4: an `isExists = true` sighting (not self-filtered) matching an
existing record only refreshes the TTL of the first match: no notification
is emitted, and the store's length and list of dedup keys are unchanged. -/
theorem refresh_is_silent (localAddresses : List String) (now ttl : Nat)
    (target : List DiscoveryRecord) (message : DiscoveryRecord)
    (hself : message.address ∉ localAddresses)
    (hex : message.isExists = true)
    (hany : target.any (fun rec => recEq rec message) = true) :
    (gotMessage localAddresses now ttl target message).1 =
      resetTTLFirst now ttl message target ∧
    (gotMessage localAddresses now ttl target message).2 = [] ∧
    ((gotMessage localAddresses now ttl target message).1).length = target.length ∧
    ((gotMessage localAddresses now ttl target message).1).map key = target.map key := by
  rw [gotMessage_refresh_eq now ttl target hself hex hany]
  exact ⟨rfl, rfl, resetTTLFirst_length now ttl message target,
    resetTTLFirst_map_key now ttl message target⟩

/-- Witness for C4 at a concrete re-sighting of an existing WLED record. -/
theorem refresh_is_silent_witness :
    (gotMessage [] 3 5 [recWled] recWledRefresh).2 = [] ∧
    ((gotMessage [] 3 5 [recWled] recWledRefresh).1).length = [recWled].length :=
  ⟨(refresh_is_silent [] 3 5 [recWled] recWledRefresh (by decide) (by decide) (by decide)).2.1,
   (refresh_is_silent [] 3 5 [recWled] recWledRefresh (by decide) (by decide) (by decide)).2.2.1⟩

/-- Claim C5: an `isExists = false` sighting (not self-filtered) matching an
existing record removes the matching records and emits exactly one
notification with the sighting's category and the new list; with no match the
store is unchanged and nothing is emitted. -/
theorem dereg_semantics (localAddresses : List String) (now ttl : Nat)
    (target : List DiscoveryRecord) (message : DiscoveryRecord)
    (hself : message.address ∉ localAddresses)
    (hex : message.isExists = false) :
    (target.any (fun rec => recEq rec message) = true →
      gotMessage localAddresses now ttl target message =
        (target.filter (fun rec => !recEq rec message),
         [(message.type, target.filter (fun rec => !recEq rec message))])) ∧
    (target.any (fun rec => recEq rec message) = false →
      gotMessage localAddresses now ttl target message = (target, [])) :=
  ⟨fun hany => gotMessage_dereg_hit_eq now ttl target hself hex hany,
   fun hany => gotMessage_dereg_miss_eq now ttl target hself hex hany⟩

/-- Witness for C5 at a concrete deregistration of an existing WLED record. -/
theorem dereg_semantics_witness :
    gotMessage [] 3 5 [recWled] recWledGone =
      ([recWled].filter (fun rec => !recEq rec recWledGone),
       [(recWledGone.type, [recWled].filter (fun rec => !recEq rec recWledGone))]) :=
  (dereg_semantics [] 3 5 [recWled] recWledGone (by decide) (by decide)).1 (by decide)

/-- Claim C1 counterexample: after a processing step (a sighting at time 5
appending a second device), the store still holds `recWled`, which was not
removed during that step and whose expiry (1) is already in the past. -/
theorem store_invariant_cex :
    recWled ∈ runStore [] 1 [] [DEvent.sight 0 recWled, DEvent.sight 5 recWledB] ∧
    expired 5 recWled = true := by decide

/-- Claim C1 (amended): after every sequence of processing steps starting
from the empty store, no two records of the store share a dedup key; and
after a step that is a `cleanUp` at time `now`, every remaining record is
additionally unexpired at `now`. (A `gotMessage` step does not purge records
that expired in the meantime, so the freshness half holds only for `cleanUp`
steps.) -/
theorem store_invariant_amended (localAddresses : List String) (ttl : Nat)
    (evs : List DEvent) (now : Nat) :
    ((runStore localAddresses ttl [] evs).map key).Nodup ∧
    ∀ r ∈ stepStore localAddresses ttl (runStore localAddresses ttl [] evs)
        (DEvent.clean now),
      expired now r = false := by
  constructor
  · have main : ∀ (l : List DEvent) (store : List DiscoveryRecord),
        (store.map key).Nodup →
        ((runStore localAddresses ttl store l).map key).Nodup := by
      intro l
      induction l with
      | nil => intro store h; exact h
      | cons e es ih =>
        intro store h
        have hstep : ((stepStore localAddresses ttl store e).map key).Nodup := by
          cases e with
          | sight n m => exact gotMessage_nodup localAddresses n ttl store m h
          | clean n => exact cleanUp_nodup n store h
        exact ih _ hstep
    exact main evs [] (by simp)
  · intro r hr
    exact cleanUp_not_expired now _ r hr

/-- Witness for the amended C1: a concrete run followed by a `cleanUp` step
keeps the unexpired `recWled`. -/
theorem store_invariant_amended_witness :
    recWled ∈ stepStore [] 1 (runStore [] 1 [] [DEvent.sight 0 recWled])
      (DEvent.clean 0) ∧
    expired 0 recWled = false :=
  ⟨by decide,
   (store_invariant_amended [] 1 [DEvent.sight 0 recWled] 0).2 recWled (by decide)⟩

/-- Claim C2 counterexample: `cleanUp` at time 1 on a store holding a single
already-expired `Unknown`-category record does remove it, yet emits no
notification (the loop's `action` variable stays `Unknown`). -/
theorem cleanUp_notify_cex :
    ((cleanUp 1 [recUnknown]).1.length < [recUnknown].length) ∧
    (cleanUp 1 [recUnknown]).2 = [] := by decide

/-- Claim C2 (amended): on a store whose records all have one category `c`
with `c ≠ Unknown` (as is the case for every store the wrapper dispatches
into), `cleanUp` removes exactly the expired records, emits exactly one
notification `(c, post-removal list)` iff at least one record was removed,
and leaves the list unchanged when none expired. -/
theorem cleanUp_correct (now : Nat) (c : Service) (l : List DiscoveryRecord)
    (hc : c ≠ Service.Unknown) (hall : ∀ r ∈ l, r.type = c) :
    (cleanUp now l).1 = l.filter (fun r => !expired now r) ∧
    (cleanUp now l).2 =
      (if l.any (expired now) then
        [(c, l.filter (fun r => !expired now r))]
      else []) ∧
    (l.any (expired now) = false → (cleanUp now l).1 = l) := by
  have h := cleanUp_homog now c l hc hall
  refine ⟨by rw [h], by rw [h], ?_⟩
  intro hnone
  rw [h]
  apply List.filter_eq_self.mpr
  intro a ha
  rw [List.any_eq_false] at hnone
  simp [hnone a ha]

/-- Witness for the amended C2: a concrete WLED store where one of two
records expired: it is removed and one notification carries the survivor. -/
theorem cleanUp_correct_witness :
    (cleanUp 2 [recWled, recWledB]).1 =
      [recWled, recWledB].filter (fun r => !expired 2 r) ∧
    (cleanUp 2 [recWled, recWledB]).2 =
      (if [recWled, recWledB].any (expired 2) then
        [(Service.WLED, [recWled, recWledB].filter (fun r => !expired 2 r))]
      else []) :=
  ⟨(cleanUp_correct 2 Service.WLED [recWled, recWledB] (by decide) (by decide)).1,
   (cleanUp_correct 2 Service.WLED [recWled, recWledB] (by decide) (by decide)).2.1⟩

/-- Claim C6: `getWLED` and `getPhilipsHUE` each first run `cleanUp` on their
category's store, emit exactly one `requestToScan` for their category, and
return the post-cleanup snapshot, which contains no expired entries. -/
theorem getServices_cleanup_scan (now : Nat) (w : DiscoveryWrapper) :
    (getWLED now w).returned = (cleanUp now w.wledDevices).1 ∧
    (getWLED now w).state = { w with wledDevices := (cleanUp now w.wledDevices).1 } ∧
    (getWLED now w).found = (cleanUp now w.wledDevices).2 ∧
    (getWLED now w).scans = [Service.WLED] ∧
    (∀ r ∈ (getWLED now w).returned, expired now r = false) ∧
    (getPhilipsHUE now w).returned = (cleanUp now w.hueDevices).1 ∧
    (getPhilipsHUE now w).state = { w with hueDevices := (cleanUp now w.hueDevices).1 } ∧
    (getPhilipsHUE now w).found = (cleanUp now w.hueDevices).2 ∧
    (getPhilipsHUE now w).scans = [Service.PhilipsHue] ∧
    (∀ r ∈ (getPhilipsHUE now w).returned, expired now r = false) := by
  refine ⟨rfl, rfl, rfl, rfl, ?_, rfl, rfl, rfl, rfl, ?_⟩
  · exact cleanUp_not_expired now w.wledDevices
  · exact cleanUp_not_expired now w.hueDevices

/-- Witness for C6: on a concrete WLED store, the snapshot returned after
cleanup keeps only records unexpired at the query time. -/
theorem getServices_cleanup_scan_witness :
    recWledB ∈ (getWLED 2 ⟨[], [recWled, recWledB], [], [], [], [], none⟩).returned ∧
    expired 2 recWledB = false :=
  ⟨by decide,
   (getServices_cleanup_scan 2 ⟨[], [recWled, recWledB], [], [], [], [], none⟩).2.2.2.2.1
     recWledB (by decide)⟩

/-- Claim C7: `requestServicesScan` cleans up all six category stores and
emits exactly four `requestToScan` events: WLED, PhilipsHue, HyperHDR and
SerialPort (none for Pico, ESP or ESP32_S2 individually). -/
theorem requestServicesScan_spec (now : Nat) (w : DiscoveryWrapper) :
    (requestServicesScan now w).1 = { w with
        wledDevices := (cleanUp now w.wledDevices).1
        hueDevices := (cleanUp now w.hueDevices).1
        hyperhdrSessions := (cleanUp now w.hyperhdrSessions).1
        esp32s2Devices := (cleanUp now w.esp32s2Devices).1
        espDevices := (cleanUp now w.espDevices).1
        picoDevices := (cleanUp now w.picoDevices).1 } ∧
    (requestServicesScan now w).2.2 =
      [Service.WLED, Service.PhilipsHue, Service.HyperHDR, Service.SerialPort] :=
  ⟨rfl, rfl⟩

/-- Claim C8: `getHyperHDRServices` returns the sessions store as is and
`getAllServices` returns the concatenation of the six stores; neither runs
`cleanUp`, emits a scan request or a notification, or mutates any store; and
with one entry each in WLED, PhilipsHue and HyperHDR (others empty) the
combined list has exactly 3 records. -/
theorem read_queries_pure (w : DiscoveryWrapper) :
    getHyperHDRServices w = ⟨w.hyperhdrSessions, w, [], []⟩ ∧
    getAllServices w =
      ⟨w.hyperhdrSessions ++ w.esp32s2Devices ++ w.espDevices ++ w.hueDevices
          ++ w.picoDevices ++ w.wledDevices, w, [], []⟩ ∧
    (getAllServices w).returned.length =
      w.hyperhdrSessions.length + w.esp32s2Devices.length + w.espDevices.length
        + w.hueDevices.length + w.picoDevices.length + w.wledDevices.length ∧
    (w.wledDevices.length = 1 → w.hueDevices.length = 1 →
      w.hyperhdrSessions.length = 1 → w.picoDevices = [] →
      w.esp32s2Devices = [] → w.espDevices = [] →
      (getAllServices w).returned.length = 3) := by
  refine ⟨rfl, rfl, by simp [getAllServices, Nat.add_assoc], ?_⟩
  intro h1 h2 h3 h4 h5 h6
  simp [getAllServices, h1, h2, h3, h4, h5, h6]

/-- Witness for C8: one record each in the WLED, PhilipsHue and HyperHDR
stores yields a combined list of exactly 3 records. -/
theorem read_queries_pure_witness :
    (getAllServices ⟨[recSession], [recWled], [recHue], [], [], [], none⟩).returned.length = 3 :=
  (read_queries_pure ⟨[recSession], [recWled], [recHue], [], [], [], none⟩).2.2.2
    (by decide) (by decide) (by decide) rfl rfl rfl

/-- Claim C9: over any sequence of scan requests starting with no serial
handle, the backend-call trace is exactly one construction with the
`"type" = "adalight"` config — performed on the first SerialPort request —
followed by exactly one `discover` call on that same handle with an empty
parameter object per SerialPort request (the first included), and nothing
else. Per step: a SerialPort request with no handle constructs and then
discovers; a SerialPort request with the handle present performs exactly one
`discover` on it; any other category performs no backend call and leaves the
state unchanged. No release happens while handling requests: the handle is
released exactly at teardown. -/
theorem serial_backend_once (reqs : List Service) (w : DiscoveryWrapper)
    (h : w.serialDevice = none) :
    ((runScans w reqs).2 =
      if Service.SerialPort ∈ reqs then
        BackendCall.construct adalightConfig ::
          List.replicate (reqs.count Service.SerialPort)
            (BackendCall.discover (constructDevice adalightConfig) [])
      else []) ∧
    (∀ v : DiscoveryWrapper, v.serialDevice = none →
      requestToScanHandler Service.SerialPort v =
        ({ v with serialDevice := some (constructDevice adalightConfig) },
         [BackendCall.construct adalightConfig,
          BackendCall.discover (constructDevice adalightConfig) []])) ∧
    (∀ v : DiscoveryWrapper, v.serialDevice = some (constructDevice adalightConfig) →
      requestToScanHandler Service.SerialPort v =
        (v, [BackendCall.discover (constructDevice adalightConfig) []])) ∧
    ((runScans w reqs).1.serialDevice =
      if Service.SerialPort ∈ reqs then some (constructDevice adalightConfig) else none) ∧
    (∀ dv, BackendCall.release dv ∉ (runScans w reqs).2) ∧
    (teardown (runScans w reqs).1 =
      if Service.SerialPort ∈ reqs then
        [BackendCall.release (constructDevice adalightConfig)]
      else []) ∧
    (∀ t, t ≠ Service.SerialPort → ∀ v, requestToScanHandler t v = (v, [])) := by
  have hother : ∀ t, t ≠ Service.SerialPort → ∀ v,
      requestToScanHandler t v = (v, []) := by
    intro t ht v
    simp [requestToScanHandler, ht]
  have hnoneStep : ∀ v : DiscoveryWrapper, v.serialDevice = none →
      requestToScanHandler Service.SerialPort v =
        ({ v with serialDevice := some (constructDevice adalightConfig) },
         [BackendCall.construct adalightConfig,
          BackendCall.discover (constructDevice adalightConfig) []]) := by
    intro v hv
    simp [requestToScanHandler, hv]
  have hsomeStep : ∀ v : DiscoveryWrapper,
      v.serialDevice = some (constructDevice adalightConfig) →
      requestToScanHandler Service.SerialPort v =
        (v, [BackendCall.discover (constructDevice adalightConfig) []]) := by
    intro v hv
    simp [requestToScanHandler, hv]
  have main : ∀ (rs : List Service) (v : DiscoveryWrapper), v.serialDevice = none →
      ((runScans v rs).1.serialDevice =
        if Service.SerialPort ∈ rs then some (constructDevice adalightConfig) else none) ∧
      ((runScans v rs).2 =
        if Service.SerialPort ∈ rs then
          BackendCall.construct adalightConfig ::
            List.replicate (rs.count Service.SerialPort)
              (BackendCall.discover (constructDevice adalightConfig) [])
        else []) := by
    intro rs
    induction rs with
    | nil =>
      intro v hv
      exact ⟨by simp [runScans, hv], by simp [runScans]⟩
    | cons t ts ih =>
      intro v hv
      by_cases ht : t = Service.SerialPort
      · subst ht
        have hstep := hnoneStep v hv
        have hrest := runScans_some ts
          { v with serialDevice := some (constructDevice adalightConfig) } rfl
        have hmem : Service.SerialPort ∈ Service.SerialPort :: ts :=
          List.mem_cons_self _ _
        constructor
        · simp only [runScans, hstep]
          rw [if_pos hmem, hrest.1]
        · simp only [runScans, hstep, hrest.2]
          rw [if_pos hmem, List.count_cons_self, List.replicate_succ]
          rfl
      · have hstep := hother t ht v
        have hrest := ih v hv
        have hiff : (Service.SerialPort ∈ t :: ts) ↔ Service.SerialPort ∈ ts := by
          constructor
          · intro hm
            rcases List.mem_cons.mp hm with hm | hm
            · exact absurd hm.symm ht
            · exact hm
          · exact fun hm => List.mem_cons_of_mem t hm
        have hcount : (t :: ts).count Service.SerialPort = ts.count Service.SerialPort := by
          rw [List.count_cons_of_ne (fun hc => ht hc.symm)]
        constructor
        · simpa only [runScans, hstep, hiff] using hrest.1
        · simp only [runScans, hstep, List.nil_append, hcount, hiff]
          exact hrest.2
  have hm := main reqs w h
  refine ⟨hm.2, hnoneStep, hsomeStep, hm.1, ?_, ?_, hother⟩
  · intro dv hmem
    rw [hm.2] at hmem
    by_cases hsp : Service.SerialPort ∈ reqs
    · rw [if_pos hsp] at hmem
      rcases List.mem_cons.mp hmem with h1 | h1
      · simp at h1
      · have h2 := List.eq_of_mem_replicate h1
        simp at h2
    · rw [if_neg hsp] at hmem
      simp at hmem
  · by_cases hsp : Service.SerialPort ∈ reqs
    · have h1 : (runScans w reqs).1.serialDevice = some (constructDevice adalightConfig) := by
        rw [hm.1, if_pos hsp]
      simp [teardown, h1, hsp]
    · have h1 : (runScans w reqs).1.serialDevice = none := by
        rw [hm.1, if_neg hsp]
      simp [teardown, h1, hsp]

/-- Witness for C9: a concrete request sequence with two SerialPort requests
yields exactly the trace construct, discover, discover. -/
theorem serial_backend_once_witness :
    (runScans emptyWrapper [Service.SerialPort, Service.WLED,
        Service.SerialPort]).2 =
      (if Service.SerialPort ∈ [Service.SerialPort, Service.WLED, Service.SerialPort] then
        BackendCall.construct adalightConfig ::
          List.replicate ([Service.SerialPort, Service.WLED,
              Service.SerialPort].count Service.SerialPort)
            (BackendCall.discover (constructDevice adalightConfig) [])
      else []) :=
  (serial_backend_once [Service.SerialPort, Service.WLED, Service.SerialPort]
    emptyWrapper rfl).1

/-- Claim C10: a sighting whose category is none of the six dispatched ones
(so `Unknown` or `SerialPort`) makes `discoveryEventHandler` a no-op: all
stores are unchanged and no notification is emitted. -/
theorem unknown_category_noop (localAddresses : List String) (now ttl : Nat)
    (message : DiscoveryRecord) (w : DiscoveryWrapper)
    (h : message.type ∉ [Service.HyperHDR, Service.WLED, Service.PhilipsHue,
        Service.Pico, Service.ESP32_S2, Service.ESP]) :
    discoveryEventHandler localAddresses now ttl message w = (w, []) := by
  have h1 : message.type ≠ Service.HyperHDR := fun hc => h (by rw [hc]; decide)
  have h2 : message.type ≠ Service.WLED := fun hc => h (by rw [hc]; decide)
  have h3 : message.type ≠ Service.PhilipsHue := fun hc => h (by rw [hc]; decide)
  have h4 : message.type ≠ Service.Pico := fun hc => h (by rw [hc]; decide)
  have h5 : message.type ≠ Service.ESP32_S2 := fun hc => h (by rw [hc]; decide)
  have h6 : message.type ≠ Service.ESP := fun hc => h (by rw [hc]; decide)
  simp [discoveryEventHandler, h1, h2, h3, h4, h5, h6]

/-- Witness for C10: a concrete `Unknown`-category sighting is a no-op. -/
theorem unknown_category_noop_witness :
    discoveryEventHandler [] 0 5 recUnknown emptyWrapper = (emptyWrapper, []) :=
  unknown_category_noop [] 0 5 recUnknown emptyWrapper (by decide)

end DiscoveryBrowser
